import Mathlib

/-
Shallow embedding of the cpp-logger repository (src/logger.h, src/logger.cpp):
a leveled stream logger with a thread-local buffer pool, snprintf-built
headers, space/quote append flags, flush-on-last-handle-destruction, and
file-target rotation.  Machine state that the C++ code keeps in globals
(severity level, prefixes, output stream, log file name) is passed
explicitly; external effects (handler calls, file writes, abort) are
recorded as values.
-/

namespace Logger

/-- The `LoggerStream::Level` enumeration (logger.h lines 28-35), with the
implicit C++ enumerator values Debug = 0, ..., Fatal = 4. -/
inductive Level where
  | Debug
  | Info
  | Warning
  | Error
  | Fatal
deriving DecidableEq, Repr

/-- Underlying integer value of the C++ enum `LoggerStream::Level`. -/
def Level.toNat : Level → Nat
  | .Debug => 0
  | .Info => 1
  | .Warning => 2
  | .Error => 3
  | .Fatal => 4

/-- The enum comparison `level >= currentSeverityLevel` performed in the
`LoggerStream` constructor (logger.cpp line 50): C++ compares the
underlying integer values. -/
def levelGE (a b : Level) : Bool := decide (b.toNat ≤ a.toNat)

/-- `LoggerStream::Stream` (logger.h lines 98-111): the pooled buffer with
the accumulated text and the current level, space and quote flags. -/
structure Stream where
  str : String
  level : Level
  space : Bool
  quote : Bool
deriving DecidableEq, Repr

/-- `logLevelToChar` (logger.cpp lines 238-256). -/
def logLevelToChar : Level → Char
  | .Debug => 'D'
  | .Info => 'I'
  | .Warning => 'W'
  | .Error => 'E'
  | .Fatal => 'E'

/-- printf zero padding `%0wd` for a non-negative argument: the decimal
digits, left-padded with zeros to width `w`. -/
def zeroPad (w : Nat) (n : Nat) : String :=
  let s := toString n
  if s.length < w then String.mk (List.replicate (w - s.length) '0') ++ s else s

/-- The wall-clock reading used by the constructor: the fields of
`struct tm` after `localtime_r` together with the derived millisecond
`tv.tv_usec / 1000`, already in printed form (`day` is `tm_mday`,
`month` is `tm_mon + 1`, `year` is `tm_year + 1900`). -/
structure ClockReading where
  day : Nat
  month : Nat
  year : Nat
  hour : Nat
  minute : Nat
  second : Nat
  millisecond : Nat
deriving DecidableEq, Repr

/-- The full expansion of the snprintf format string
`"%s%02d.%02d.%d %02d:%02d:%02d.%03d %c [%d] %s: "` (logger.cpp
lines 68-72) before any size truncation. -/
def headerFull (appText msgText : String) (c : ClockReading) (level : Level)
    (pid : Nat) : String :=
  appText ++ zeroPad 2 c.day ++ "." ++ zeroPad 2 c.month ++ "." ++ toString c.year
    ++ " " ++ zeroPad 2 c.hour ++ ":" ++ zeroPad 2 c.minute ++ ":" ++ zeroPad 2 c.second
    ++ "." ++ zeroPad 3 c.millisecond ++ " " ++ String.singleton (logLevelToChar level)
    ++ " [" ++ toString pid ++ "] " ++ msgText ++ ": "

/-- `snprintf(buf, n, ...)` truncation: at most `n - 1` characters are
stored, followed by the NUL terminator. -/
def snprintfTrunc (n : Nat) (s : String) : String := String.mk (s.data.take (n - 1))

/-- The header actually seeded into the buffer: the constructor calls
`snprintf(header, sizeof(header) - 1, ...)` with `char header[128]`
(logger.cpp lines 64-76), so the size argument is 127 and at most 126
characters are produced. -/
def headerString (appText msgText : String) (c : ClockReading) (level : Level)
    (pid : Nat) : String :=
  snprintfTrunc 127 (headerFull appText msgText c level pid)

/-- The process-wide configuration read by the constructor: the atomic
`severityLevel` and the two mutex-guarded registry strings
`applicationPrefix` and `messagePrefix` (stored already transformed by
their setters). -/
structure Env where
  severityLevel : Level
  appText : String
  msgText : String
deriving DecidableEq, Repr

/-- A default-constructed `Stream`: `std::string str` is empty; `level`,
`space` and `quote` are indeterminate in C++ (set by the `LoggerStream`
constructor before any use), so the values chosen here are arbitrary. -/
def freshStream : Stream := { str := "", level := .Debug, space := true, quote := false }

/-- `LoggerStream::getFromPool` (logger.cpp lines 175-187): take the back
of the thread-local deque if non-empty, else default-construct.  The
list head models the back of the deque (push_back/pop_back end). -/
def getFromPool : List Stream → Stream × List Stream
  | [] => (freshStream, [])
  | s :: rest => (s, rest)

/-- `LoggerStream::pushToPool` (logger.cpp lines 189-192): push_back onto
the thread-local deque (list head models the back). -/
def pushToPool (s : Stream) (pool : List Stream) : List Stream := s :: pool

/-- The `LoggerStream(Level)` constructor (logger.cpp lines 46-81): load
the severity level; if `level >= currentSeverityLevel`, take a buffer
from the pool of the thread, reset its text and flags, build the header with
snprintf and append it; otherwise leave the shared_ptr of the handle null
and the pool untouched.  Returns the buffer of the handle (none when
filtered out) and the updated pool. -/
def loggerStreamCtor (level : Level) (env : Env) (c : ClockReading) (pid : Nat)
    (pool : List Stream) : Option Stream × List Stream :=
  if levelGE level env.severityLevel then
    let r := getFromPool pool
    let s1 : Stream := { r.1 with str := "", level := level, space := true, quote := false }
    let hdr := headerString env.appText env.msgText c level pid
    (some { s1 with str := s1.str ++ hdr }, r.2)
  else
    (none, pool)

/-- `LoggerStream::addLogMessage` (logger.h lines 215-234): optional
leading space, optional opening quote, the token, optional closing
quote, each decided by the flags as they stand now. -/
def addLogMessage (st : Stream) (s : String) : Stream :=
  let str1 := if st.space then st.str ++ " " else st.str
  let str2 := if st.quote then str1 ++ "\"" else str1
  let str3 := str2 ++ s
  let str4 := if st.quote then str3 ++ "\"" else str3
  { st with str := str4 }

/-- `LoggerStream::operator<<` (logger.h lines 168-213): append the token
when a buffer is held, otherwise do nothing. -/
def appendToken : Option Stream → String → Option Stream
  | none, _ => none
  | some st, s => some (addLogMessage st s)

/-- `LoggerStream::space` (logger.h lines 132-139). -/
def space : Option Stream → Option Stream
  | none => none
  | some st => some { st with space := true }

/-- `LoggerStream::nospace` (logger.h lines 141-148). -/
def nospace : Option Stream → Option Stream
  | none => none
  | some st => some { st with space := false }

/-- `LoggerStream::quote` (logger.h lines 150-157). -/
def quote : Option Stream → Option Stream
  | none => none
  | some st => some { st with quote := true }

/-- `LoggerStream::noquote` (logger.h lines 159-166). -/
def noquote : Option Stream → Option Stream
  | none => none
  | some st => some { st with quote := false }

/-- A chain of `<<` appends, left to right. -/
def appendTokens (toks : List String) (ls : Option Stream) : Option Stream :=
  toks.foldl appendToken ls

/-- What `~LoggerStream` (logger.cpp lines 83-90) dispatches for a single
handle: `stream.unique()` holds iff the shared_ptr is non-null with use
count 1; a null shared_ptr (filtered-out stream) is never unique. -/
def dtorDispatch : Option Stream → Nat → Option (Level × String)
  | none, _ => none
  | some st, useCount => if useCount = 1 then some (st.level, st.str) else none

/-- The lifecycle state of one logical message on one thread: the number
of `LoggerStream` handles still sharing the buffer, the buffer itself,
the dispatch calls performed so far, and the pool of the thread. -/
structure MsgLife where
  refs : Nat
  buffer : Stream
  dispatched : List (Level × String)
  pool : List Stream
deriving DecidableEq, Repr

/-- One run of `~LoggerStream` (logger.cpp lines 83-90) on the lifecycle
state: when the destroyed handle is the unique owner (`stream.unique()`,
use count 1), `logHandler` is called with the level and text of the buffer and
the buffer goes back to the pool via `pushToPool`; otherwise the
shared_ptr destructor merely drops the reference count. -/
def dtorStep (st : MsgLife) : MsgLife :=
  if st.refs = 1 then
    { st with
      refs := 0,
      dispatched := st.dispatched ++ [(st.buffer.level, st.buffer.str)],
      pool := pushToPool st.buffer st.pool }
  else
    { st with refs := st.refs - 1 }

/-- `n` successive handle destructions. -/
def dtorSteps : Nat → MsgLife → MsgLife
  | 0, st => st
  | n + 1, st => dtorSteps n (dtorStep st)

/-- A `FILE *` value: the default `stderr`, or a handle returned by some
`fopen` call. -/
inductive FileRef where
  | stderrFile
  | handle (id : Nat)
deriving DecidableEq, Repr

/-- The observable effects of one `logHandler` call (logger.cpp lines
219-236): calls to the installed output handler, `fprintf` writes to a
`FILE *`, `fflush` calls, and whether `abort()` runs at the end. -/
structure DispatchResult where
  handlerCalls : List (Nat × Level × String)
  fileWrites : List (FileRef × String)
  flushed : List FileRef
  aborted : Bool
deriving DecidableEq, Repr

/-- `logHandler` (logger.cpp lines 219-236): if a handler is installed
(modelled by its identity `Nat`), call it with the level and text; else
`fprintf(stream, "%s\n", s)` to the current output stream and `fflush`
it.  Afterwards, `abort()` iff the level is Fatal. -/
def logHandler (h : Option Nat) (outputStream : FileRef) (level : Level)
    (s : String) : DispatchResult :=
  match h with
  | some f =>
      { handlerCalls := [(f, level, s)], fileWrites := [], flushed := [],
        aborted := decide (level = .Fatal) }
  | none =>
      { handlerCalls := [], fileWrites := [(outputStream, s ++ "\n")],
        flushed := [outputStream], aborted := decide (level = .Fatal) }

/-- The globals that rotation touches: the atomic `outputStream` and the
mutex-guarded `logFileName`. -/
structure OutputState where
  outputStream : FileRef
  logFileName : String
deriving DecidableEq, Repr

/-- Side effects of a rotation: the diagnostic `fprintf(stderr, ...)` line
on open failure, and `fclose` of a previous handle on success. -/
inductive RotateEvent where
  | diagnostic (target : FileRef) (line : String)
  | closed (f : FileRef)
deriving DecidableEq, Repr

/-- `LoggerStream::rotateFile` (logger.cpp lines 142-173).  The result of
`fopen(fileName, "a")` is supplied as an oracle (`none` = failure, with
`errText` the `strerror(errno)` text).  On an empty file name, nothing
happens.  On open failure, the diagnostic line
`cannot open log file <name>: <err>` (name in single quotes) is printed to stderr and the
output stream is left unchanged.  On success, the new handle is swapped
in atomically and the previous one is closed unless it is stderr. -/
def rotateFile (openResult : Option FileRef) (errText : String)
    (st : OutputState) : OutputState × List RotateEvent :=
  if st.logFileName = "" then (st, [])
  else
    match openResult with
    | none =>
        (st, [.diagnostic .stderrFile
          ("cannot open log file \x27" ++ st.logFileName ++ "\x27: " ++ errText ++ "\n")])
    | some newFile =>
        let previousFile := st.outputStream
        ({ st with outputStream := newFile },
         if previousFile ≠ .stderrFile then [.closed previousFile] else [])

/-- `LoggerStream::setLogFileName` (logger.cpp lines 133-140): store the
name, then rotate. -/
def setLogFileName (fileName : String) (openResult : Option FileRef)
    (errText : String) (st : OutputState) : OutputState × List RotateEvent :=
  rotateFile openResult errText { st with logFileName := fileName }

/-- `LoggerStream::setSeverityLevel(const std::string &)` (logger.cpp
lines 102-116): case-sensitive name lookup, defaulting to Info. -/
def setSeverityLevelByName (level : String) : Level :=
  if level = "debug" then .Debug
  else if level = "info" then .Info
  else if level = "warning" then .Warning
  else if level = "error" then .Error
  else .Info

/-- `LoggerStream::setApplicationPrefix` (logger.cpp lines 118-125): a
trailing space is appended when the argument is non-empty, then the
result is stored. -/
def setApplicationPrefix (text : String) : String :=
  if text = "" then text else text ++ " "

/-- `LoggerStream::setMessagePrefix` (logger.cpp lines 127-131): stored
verbatim. -/
def setMessagePrefix (text : String) : String := text

end Logger

namespace Logger

/-- Length of a snprintf-truncated string. -/
theorem snprintfTrunc_length (n : Nat) (s : String) :
    (snprintfTrunc n s).length = min (n - 1) s.data.length := by
  show (s.data.take (n - 1)).length = _
  exact List.length_take _ _

/-- A snprintf-truncated string is an initial segment of the full output. -/
theorem snprintfTrunc_isPre (n : Nat) (s : String) :
    (snprintfTrunc n s).data <+: s.data := by
  show s.data.take (n - 1) <+: s.data
  exact List.take_prefix _ _

/-- snprintf does not truncate output that fits in the buffer. -/
theorem snprintfTrunc_of_le (n : Nat) (s : String) (h : s.data.length ≤ n - 1) :
    snprintfTrunc n s = s := by
  unfold snprintfTrunc
  rw [List.take_of_length_le h]

/-- Destruction steps compose: running one more handle destruction applies
`dtorStep` to the result of the previous ones. -/
theorem dtorSteps_shift (n : Nat) (st : MsgLife) :
    dtorSteps (n + 1) st = dtorStep (dtorSteps n st) := by
  induction n generalizing st with
  | zero => rfl
  | succ m ih =>
      show dtorSteps (m + 1) (dtorStep st) = _
      rw [ih (dtorStep st)]
      rfl

/-- While at least one handle survives, each destruction only drops the
reference count: nothing is dispatched and the pool is untouched. -/
theorem dtorSteps_early_run (j k : Nat) (buf : Stream) (pool : List Stream)
    (hj : j < k) :
    dtorSteps j ⟨k, buf, [], pool⟩ = ⟨k - j, buf, [], pool⟩ := by
  induction j generalizing k with
  | zero => rfl
  | succ m ih =>
      have hk1 : ¬ k = 1 := by omega
      show dtorSteps m (dtorStep ⟨k, buf, [], pool⟩) = _
      rw [show dtorStep ⟨k, buf, [], pool⟩ = ⟨k - 1, buf, [], pool⟩ by
        simp [dtorStep, hk1]]
      rw [ih (k - 1) (by omega)]
      congr 1
      omega

/-- C1: for a buffer shared by `k ≥ 1` stream handles, destroying any copy
while others survive performs no dispatch and no pool return; the
destruction of the last handle performs exactly one dispatch (with the
level and accumulated text of the buffer) and then returns the buffer to
the pool of the destroying thread via `pushToPool`. -/
theorem c1_flush_once (k : Nat) (hk : 1 ≤ k) (buf : Stream) (pool : List Stream) :
    (∀ j, j < k → dtorSteps j ⟨k, buf, [], pool⟩ = ⟨k - j, buf, [], pool⟩)
    ∧ dtorSteps k ⟨k, buf, [], pool⟩ =
        ⟨0, buf, [(buf.level, buf.str)], pushToPool buf pool⟩ := by
  constructor
  · intro j hj
    exact dtorSteps_early_run j k buf pool hj
  · obtain ⟨m, rfl⟩ : ∃ m, k = m + 1 := ⟨k - 1, by omega⟩
    rw [dtorSteps_shift]
    rw [dtorSteps_early_run m (m + 1) buf pool (by omega)]
    have hm : m + 1 - m = 1 := by omega
    rw [hm]
    rfl

/-- Witness for C1 at two handles: the first destruction flushes nothing,
the second dispatches once and pools the buffer. -/
theorem c1_flush_once_w :
    (dtorSteps 1 ⟨2, ⟨"H: a", .Info, true, false⟩, [], []⟩ =
      ⟨2 - 1, ⟨"H: a", .Info, true, false⟩, [], []⟩)
    ∧ dtorSteps 2 ⟨2, ⟨"H: a", .Info, true, false⟩, [], []⟩ =
      ⟨0, ⟨"H: a", .Info, true, false⟩, [(.Info, "H: a")],
        pushToPool ⟨"H: a", .Info, true, false⟩ []⟩ :=
  ⟨(c1_flush_once 2 (by decide) ⟨"H: a", .Info, true, false⟩ []).1 1 (by decide),
   (c1_flush_once 2 (by decide) ⟨"H: a", .Info, true, false⟩ []).2⟩

/-- C2: a stream at level `L` under threshold `T` is active iff `L ≥ T` in
the enumeration order Debug < Info < Warning < Error < Fatal; an inactive
stream holds no buffer and leaves the pool untouched (zero allocation),
every chained append/space/nospace/quote/noquote call on it is a no-op,
and its destruction dispatches nothing. -/
theorem c2_severity_gate (L T : Level) (appText msgText : String) (c : ClockReading)
    (pid : Nat) (pool : List Stream) :
    ((loggerStreamCtor L ⟨T, appText, msgText⟩ c pid pool).1.isSome ↔ T.toNat ≤ L.toNat)
    ∧ (Level.toNat .Debug < Level.toNat .Info ∧ Level.toNat .Info < Level.toNat .Warning
       ∧ Level.toNat .Warning < Level.toNat .Error ∧ Level.toNat .Error < Level.toNat .Fatal)
    ∧ (¬ T.toNat ≤ L.toNat →
        loggerStreamCtor L ⟨T, appText, msgText⟩ c pid pool = (none, pool))
    ∧ (∀ s, appendToken none s = none)
    ∧ space none = none ∧ nospace none = none ∧ quote none = none ∧ noquote none = none
    ∧ (∀ u, dtorDispatch none u = none) := by
  refine ⟨?_, by decide, ?_, fun s => rfl, rfl, rfl, rfl, rfl, fun u => rfl⟩
  · by_cases hT : T.toNat ≤ L.toNat <;> simp [loggerStreamCtor, levelGE, hT]
  · intro hT
    simp [loggerStreamCtor, levelGE, hT]

/-- Witness for C2: a Debug stream under an Info threshold is disabled. -/
theorem c2_severity_gate_w :
    loggerStreamCtor .Debug ⟨.Info, "", ""⟩ ⟨1, 1, 2000, 0, 0, 0, 0⟩ 1 [] = (none, []) :=
  (c2_severity_gate .Debug .Info "" "" ⟨1, 1, 2000, 0, 0, 0, 0⟩ 1 []).2.2.1 (by decide)

/-- C3: when the formatted header fits the scratch buffer, an active
stream is seeded with exactly
`<appText><DD>.<MM>.<YYYY> <HH>:<MM>:<SS>.<mmm> <LevelChar> [<pid>] <msgText>: `,
with LevelChar D/I/W/E/E for Debug/Info/Warning/Error/Fatal. -/
theorem c3_header_layout (L T : Level) (appText msgText : String) (c : ClockReading)
    (pid : Nat) (pool : List Stream) (hact : levelGE L T = true)
    (hfit : (headerFull appText msgText c L pid).length ≤ 126) :
    (loggerStreamCtor L ⟨T, appText, msgText⟩ c pid pool).1 =
      some ⟨appText ++ zeroPad 2 c.day ++ "." ++ zeroPad 2 c.month ++ "." ++ toString c.year
        ++ " " ++ zeroPad 2 c.hour ++ ":" ++ zeroPad 2 c.minute ++ ":" ++ zeroPad 2 c.second
        ++ "." ++ zeroPad 3 c.millisecond ++ " " ++ String.singleton (logLevelToChar L)
        ++ " [" ++ toString pid ++ "] " ++ msgText ++ ": ", L, true, false⟩
    ∧ logLevelToChar .Debug = 'D' ∧ logLevelToChar .Info = 'I'
    ∧ logLevelToChar .Warning = 'W' ∧ logLevelToChar .Error = 'E'
    ∧ logLevelToChar .Fatal = 'E' := by
  have hfit2 : (headerFull appText msgText c L pid).data.length ≤ 126 := hfit
  have htr : headerString appText msgText c L pid = headerFull appText msgText c L pid := by
    unfold headerString
    exact snprintfTrunc_of_le 127 (headerFull appText msgText c L pid) hfit2
  refine ⟨?_, rfl, rfl, rfl, rfl, rfl⟩
  cases pool <;>
    · simp [loggerStreamCtor, hact, getFromPool, String.empty_append, htr]
      rfl

/-- Witness for C3 at the clock reading, pid and prefixes of the usage
example in logger.h. -/
theorem c3_header_layout_w :
    (loggerStreamCtor .Info ⟨.Debug, "app ", "PRE"⟩ ⟨3, 8, 2017, 12, 44, 15, 737⟩ 26629 []).1 =
      some ⟨"app " ++ zeroPad 2 3 ++ "." ++ zeroPad 2 8 ++ "." ++ toString 2017
        ++ " " ++ zeroPad 2 12 ++ ":" ++ zeroPad 2 44 ++ ":" ++ zeroPad 2 15
        ++ "." ++ zeroPad 3 737 ++ " " ++ String.singleton (logLevelToChar .Info)
        ++ " [" ++ toString 26629 ++ "] " ++ "PRE" ++ ": ", .Info, true, false⟩ :=
  (c3_header_layout .Info .Debug "app " "PRE" ⟨3, 8, 2017, 12, 44, 15, 737⟩ 26629 []
    (by decide) (by decide)).1

/-- C4: for every combination of prefixes and inputs, the seeded header
never exceeds 127 visible characters (the code in fact stops at 126, the
snprintf size argument being `sizeof(header) - 1 = 127`), and overlong
content is silently truncated: the stored header is an initial segment
of the untruncated format output. -/
theorem c4_header_bounded (appText msgText : String) (c : ClockReading) (L : Level)
    (pid : Nat) :
    (headerString appText msgText c L pid).length ≤ 127
    ∧ (headerString appText msgText c L pid).data
        <+: (headerFull appText msgText c L pid).data := by
  constructor
  · unfold headerString
    rw [snprintfTrunc_length]
    omega
  · unfold headerString
    exact snprintfTrunc_isPre 127 (headerFull appText msgText c L pid)

/-- C5: each appended token honors the space and quote flags as read at
the moment of that append, a toggle affects only later tokens, and the
three documented chains produce `... a b c`, `...abc` and
quoted `... "a" "b" "c"`. -/
theorem c5_space_quote_flags (st : Stream) (tok : String) (h : String) (L : Level) :
    (addLogMessage st tok = { st with str := st.str ++ (if st.space then " " else "")
        ++ (if st.quote then "\"" else "") ++ tok ++ (if st.quote then "\"" else "") })
    ∧ appendToken (nospace (appendToken (some ⟨h, L, true, false⟩) "a")) "b"
        = some ⟨h ++ " " ++ "a" ++ "b", L, false, false⟩
    ∧ appendTokens ["a", "b", "c"] (some ⟨h, L, true, false⟩)
        = some ⟨h ++ " a b c", L, true, false⟩
    ∧ appendTokens ["a", "b", "c"] (nospace (some ⟨h, L, true, false⟩))
        = some ⟨h ++ "abc", L, false, false⟩
    ∧ appendTokens ["a", "b", "c"] (quote (some ⟨h, L, true, false⟩))
        = some ⟨h ++ " \"a\" \"b\" \"c\"", L, true, true⟩ := by
  refine ⟨?_, rfl, ?_, ?_, ?_⟩
  · cases hs : st.space <;> cases hq : st.quote <;>
      simp [addLogMessage, hs, hq, String.append_assoc, String.append_empty]
  · simp [appendTokens, appendToken, addLogMessage, String.append_assoc]
  · simp [appendTokens, appendToken, nospace, addLogMessage, String.append_assoc]
  · simp [appendTokens, appendToken, quote, addLogMessage, String.append_assoc]

/-- C6: dispatch calls the installed handler (and writes no file) when one
is set, otherwise writes the text plus a newline to the current target
and flushes it immediately; in both cases `abort()` runs iff the level is
Fatal. -/
theorem c6_dispatch (hnd : Option Nat) (target : FileRef) (L : Level) (s : String) :
    (∀ f, hnd = some f → logHandler hnd target L s =
        ⟨[(f, L, s)], [], [], decide (L = .Fatal)⟩)
    ∧ (hnd = none → logHandler hnd target L s =
        ⟨[], [(target, s ++ "\n")], [target], decide (L = .Fatal)⟩)
    ∧ ((logHandler hnd target L s).aborted = true ↔ L = .Fatal) := by
  refine ⟨?_, ?_, ?_⟩
  · intro f hf
    subst hf
    rfl
  · intro hf
    subst hf
    rfl
  · cases hnd <;> simp [logHandler]

/-- Witness for C6: a Fatal dispatch with no handler writes and flushes
the line on the target and aborts. -/
theorem c6_dispatch_w :
    logHandler none .stderrFile .Fatal "boom" =
      ⟨[], [(.stderrFile, "boom" ++ "\n")], [.stderrFile], decide (Level.Fatal = .Fatal)⟩ :=
  (c6_dispatch none .stderrFile .Fatal "boom").2.1 rfl

/-- C7: with a configured path, a failed open reports a diagnostic on
stderr and leaves the output target unchanged; a successful open swaps
the new handle in and closes the previous one unless it is stderr. -/
theorem c7_rotate (st : OutputState) (errText : String) (f : FileRef)
    (hcfg : st.logFileName ≠ "") :
    rotateFile none errText st =
      (st, [.diagnostic .stderrFile
        ("cannot open log file \x27" ++ st.logFileName ++ "\x27: " ++ errText ++ "\n")])
    ∧ rotateFile (some f) errText st =
      ({ st with outputStream := f },
       if st.outputStream ≠ .stderrFile then [.closed st.outputStream] else []) := by
  constructor <;> simp [rotateFile, hcfg]

/-- Witness for C7 at a concrete configured state, for both a failing and
a succeeding open. -/
theorem c7_rotate_w :
    rotateFile none "No such file or directory" ⟨.handle 1, "bad.log"⟩ =
      (⟨.handle 1, "bad.log"⟩, [.diagnostic .stderrFile
        ("cannot open log file \x27" ++ "bad.log" ++ "\x27: "
          ++ "No such file or directory" ++ "\n")])
    ∧ rotateFile (some (.handle 2)) "No such file or directory" ⟨.handle 1, "bad.log"⟩ =
      (⟨.handle 2, "bad.log"⟩,
       if FileRef.handle 1 ≠ .stderrFile then [.closed (.handle 1)] else []) :=
  c7_rotate ⟨.handle 1, "bad.log"⟩ "No such file or directory" (.handle 2) (by decide)

/-- C8: the names debug, info, warning and error map case-sensitively to
their levels; every other string, including bogus, fatal and
wrongly-cased names, maps to Info with no error signaled. -/
theorem c8_severity_names :
    (setSeverityLevelByName "debug" = .Debug ∧ setSeverityLevelByName "info" = .Info ∧
     setSeverityLevelByName "warning" = .Warning ∧ setSeverityLevelByName "error" = .Error) ∧
    (setSeverityLevelByName "bogus" = .Info ∧ setSeverityLevelByName "fatal" = .Info ∧
     setSeverityLevelByName "Debug" = .Info) ∧
    (∀ s : String, s ≠ "debug" → s ≠ "info" → s ≠ "warning" → s ≠ "error" →
      setSeverityLevelByName s = .Info) := by
  refine ⟨by decide, by decide, ?_⟩
  intro s h1 h2 h3 h4
  simp [setSeverityLevelByName, h1, h2, h3, h4]

/-- Witness for C8 at the unrecognized name bogus. -/
theorem c8_severity_names_w : setSeverityLevelByName "bogus" = .Info :=
  c8_severity_names.2.2 "bogus" (by decide) (by decide) (by decide) (by decide)

/-- C9: a non-empty application prefix is stored with exactly one trailing
space appended, the empty string clears it with no trailing space, and
the message prefix is stored verbatim. -/
theorem c9_registry_texts :
    (∀ t : String, t ≠ "" → setApplicationPrefix t = t ++ " ") ∧
    setApplicationPrefix "" = "" ∧
    (∀ t : String, setMessagePrefix t = t) := by
  refine ⟨?_, rfl, fun t => rfl⟩
  intro t ht
  simp [setApplicationPrefix, ht]

/-- Witness for C9 at a non-empty application prefix. -/
theorem c9_registry_texts_w : setApplicationPrefix "app" = "app " :=
  c9_registry_texts.1 "app" (by decide)

/-- C10: whatever content and flags a recycled buffer carries, an active
construction resets everything: the resulting buffer holds exactly the
fresh header with space true and quote false, independent of the junk. -/
theorem c10_buffer_reset (L T : Level) (appText msgText : String) (c : ClockReading)
    (pid : Nat) (junk : Stream) (pool : List Stream) (hact : levelGE L T = true) :
    loggerStreamCtor L ⟨T, appText, msgText⟩ c pid (junk :: pool) =
      (some ⟨headerString appText msgText c L pid, L, true, false⟩, pool) := by
  simp [loggerStreamCtor, hact, getFromPool, String.empty_append]

/-- Witness for C10: a buffer full of leftovers is fully reset. -/
theorem c10_buffer_reset_w :
    loggerStreamCtor .Error ⟨.Debug, "A ", "P"⟩ ⟨3, 8, 2017, 12, 44, 15, 737⟩ 26629
        [⟨"LEFTOVER", .Fatal, false, true⟩] =
      (some ⟨headerString "A " "P" ⟨3, 8, 2017, 12, 44, 15, 737⟩ .Error 26629,
        .Error, true, false⟩, []) :=
  c10_buffer_reset .Error .Debug "A " "P" ⟨3, 8, 2017, 12, 44, 15, 737⟩ 26629
    ⟨"LEFTOVER", .Fatal, false, true⟩ [] (by decide)

end Logger
